import Mathlib

/-! A shallow embedding of the `promises` library (`promises.py`, `utils.py`).

Python values flowing through a chain are modelled by an arbitrary type `V`
with decidable equality (Python `==`) and a `ToString` instance (Python
`str`, used by the default mismatch handler's error message).  A raised
Python exception is modelled by `Exc`, carrying the exception class name and
`str(e)`; a handler call either returns a value or raises, i.e. yields
`Except Exc V`.  The background thread, the one-shot result queue and the
logging calls are not value-relevant: `_wait` computes one value and `wait`
delivers exactly that value, which `waitResult` models directly.
-/

/-- A Python exception object: its class name and its message `str(e)`. -/
structure Exc where
  kind : String
  msg : String
deriving DecidableEq, Repr

/-- Whether, in `startsWithL n h`, the character list `n` is a prefix of `h`. -/
def startsWithL : List Char → List Char → Bool
  | [], _ => true
  | _ :: _, [] => false
  | a :: as, b :: bs => a == b && startsWithL as bs

/-- Whether, in `subList n h`, the character list `n` occurs contiguously inside `h`. -/
def subList (needle : List Char) : List Char → Bool
  | [] => needle.isEmpty
  | b :: bs => startsWithL needle (b :: bs) || subList needle bs

/-- Python `needle in hay` on strings. -/
def strIn (needle hay : String) : Bool :=
  subList needle.toList hay.toList

/-- The substring tested by `_wait` against `str(e)` (promises.py line 132). -/
def ukaNeedle : String := "unexpected keyword argument"

/-- The retry test of `_wait`: `"unexpected keyword argument" in str(e)`. -/
def hasUKA (e : Exc) : Bool := strIn ukaNeedle e.msg

/-- A Python callable usable as an `on_match` handler.  `_wait` invokes it in
two ways: `on_match(result, no_promise=True)` (`callWithBypass`) and
`on_match(result)` (`callPlain`); each invocation returns a value or raises. -/
structure Handler (V : Type) where
  callWithBypass : V → Except Exc V
  callPlain : V → Except Exc V

/-- The effective `on_match` invocation of `_wait` (promises.py lines 129-140):
first `on_match(result, no_promise=True)`; if that raises an exception whose
message contains "unexpected keyword argument", retry as `on_match(result)`;
any other exception (or an exception from the retry) propagates to the
enclosing capture. -/
def callMatch {V : Type} (h : Handler V) (r : V) : Except Exc V :=
  match h.callWithBypass r with
  | Except.ok v => Except.ok v
  | Except.error e => if hasUKA e then h.callPlain r else Except.error e

/-- The `ChainItem` namedtuple of promises.py.  `otherwise` is `Option`-valued
to model the Python field holding either a callable or `None`; `_Promise.on`
always stores a callable (see `onAdd`). -/
structure ChainItem (V : Type) where
  expected : V
  on_match : Handler V
  otherwise : Option (V → V → Except Exc V)

/-- The `FunctionCall` namedtuple of promises.py: a function together with the
positional and keyword arguments it will eventually be invoked with. -/
structure FunctionCall (V : Type) where
  fn : List V → List (String × V) → V
  args : List V
  kwargs : List (String × V)

/-- The state of a `_Promise` instance: its entry call, its call chain, and
whether its background thread has been created (`_thread`). -/
structure PromiseState (V : Type) where
  first_call : FunctionCall V
  call_chain : List (ChainItem V)
  thread : Option Unit

/-- Model of `_Promise.__init__`: store the first call, start with an empty chain and
no thread. -/
def mkPromise {V : Type} (fc : FunctionCall V) : PromiseState V :=
  ⟨fc, [], none⟩

/-- The `ValueError` object constructed by the default `raise_value_error`
handler of `_Promise.on`:
`ValueError("expected({}) does not equal result({})".format(expected_result, result))`. -/
def mismatchError {V : Type} [ToString V] (result expected_result : V) : Exc :=
  ⟨"ValueError",
    "expected(" ++ toString expected_result ++ ") does not equal result("
      ++ toString result ++ ")"⟩

/-- The `raise_value_error` default handler installed by `_Promise.on` when no
`otherwise` is supplied: it raises the mismatch `ValueError`. -/
def raiseValueError {V : Type} [ToString V] (result expected_result : V) :
    Except Exc V :=
  Except.error (mismatchError result expected_result)

/-- Model of `_Promise.on`: append a `ChainItem`; when `otherwise` is `None`, the
default `raise_value_error` handler is substituted before appending. -/
def onAdd {V : Type} [ToString V] (p : PromiseState V) (expected : V)
    (on_match : Handler V) (otherwise : Option (V → V → Except Exc V)) :
    PromiseState V :=
  { p with call_chain :=
      p.call_chain ++ [⟨expected, on_match, some (otherwise.getD raiseValueError)⟩] }

/-- Model of `_Promise.go`: create the background thread only when none exists.  The
second component counts the execution units created by this call (0 or 1). -/
def goStep {V : Type} (p : PromiseState V) : PromiseState V × Nat :=
  match p.thread with
  | none => ({ p with thread := some () }, 1)
  | some _ => (p, 0)

/-- The entry call of `_wait` (line 123): `fn(*args, **kwargs)`. -/
def runEntry {V : Type} (fc : FunctionCall V) : V :=
  fc.fn fc.args fc.kwargs

/-- The chain loop of `_Promise._wait` (promises.py lines 126-160), starting
from the current `result`.  On a match, the handler is invoked via
`callMatch`; success feeds the next link, an exception is captured as the
final result and the loop breaks.  On a mismatch, `otherwise(result,
expected)` is the final result whether it returns or raises; a stored `None`
would raise `TypeError` inside the same `try` (unreachable for chains built
by `on`). -/
def runChain {V : Type} [DecidableEq V] (result : V) :
    List (ChainItem V) → Except Exc V
  | [] => Except.ok result
  | item :: rest =>
    if result = item.expected then
      match callMatch item.on_match result with
      | Except.ok r => runChain r rest
      | Except.error e => Except.error e
    else
      match item.otherwise with
      | some f => f result item.expected
      | none => Except.error ⟨"TypeError", "NoneType object is not callable"⟩

/-- The value `_wait` publishes to the result queue and `wait` returns. -/
def waitResult {V : Type} [DecidableEq V] (p : PromiseState V) : Except Exc V :=
  runChain (runEntry p.first_call) p.call_chain

/-- Proposition `ChainMatches r chain final`: starting from current result `r`, every link
of `chain` matches its `expected` value and its `on_match` invocation (via the
bypass-then-retry convention) returns normally; each handler receives the
preceding handler's return value and `final` is the last return value (`r`
itself for the empty chain). -/
inductive ChainMatches {V : Type} : V → List (ChainItem V) → V → Prop where
  | nil (r : V) : ChainMatches r [] r
  | cons {r r' final : V} {item : ChainItem V} {rest : List (ChainItem V)}
      (heq : r = item.expected)
      (hcall : callMatch item.on_match r = Except.ok r')
      (htail : ChainMatches r' rest final) :
      ChainMatches r (item :: rest) final

theorem runChain_append {V : Type} [DecidableEq V] {r0 r : V}
    {pre : List (ChainItem V)} (hm : ChainMatches r0 pre r)
    (tail : List (ChainItem V)) :
    runChain r0 (pre ++ tail) = runChain r tail := by
  induction hm with
  | nil r => rfl
  | cons heq hcall _ ih =>
      rw [List.cons_append, runChain, if_pos heq, hcall]
      exact ih

theorem runChain_of_matches {V : Type} [DecidableEq V] {r0 r : V}
    {chain : List (ChainItem V)} (hm : ChainMatches r0 chain r) :
    runChain r0 chain = Except.ok r := by
  have h := runChain_append hm []
  rwa [List.append_nil] at h

/-- C1: for a chain whose every link matches and whose every `on_match`
invocation returns (each receiving the previous handler's return value, link 0
receiving the entry call's value), `wait` delivers the last handler's return
value; for the empty chain it delivers the entry call's value. -/
theorem c1_all_match_returns_last {V : Type} [DecidableEq V]
    (p : PromiseState V) (final : V)
    (h : ChainMatches (runEntry p.first_call) p.call_chain final) :
    waitResult p = Except.ok final :=
  runChain_of_matches h

/-- The `TypeError` Python raises when a plain function that accepts no
`no_promise` keyword is invoked as `fn(result, no_promise=True)`. -/
def ukaExc : Exc :=
  ⟨"TypeError", "plain() got an unexpected keyword argument no_promise"⟩

/-- A handler wrapping a plain Python function: the bypass invocation raises
the unexpected-keyword `TypeError`; the plain invocation runs the function. -/
def plainHandler {V : Type} (g : V → Except Exc V) : Handler V :=
  ⟨fun _ => Except.error ukaExc, g⟩

/-- A plain handler adding 3 to its argument (spec test scenario). -/
def add3 : Handler Int := plainHandler (fun r => Except.ok (r + 3))

/-- An entry call returning 5 (spec test scenario). -/
def entry5 : FunctionCall Int := ⟨fun _ _ => 5, [], []⟩

/-- The spec's end-to-end chain: entry returns 5; link 1 expects 5 and adds 3;
link 2 expects 8 and adds 3. -/
def examplePromise : PromiseState Int :=
  onAdd (onAdd (mkPromise entry5) 5 add3 none) 8 add3 none

theorem c1_witness : waitResult examplePromise = Except.ok (11 : Int) :=
  c1_all_match_returns_last examplePromise 11
    (ChainMatches.cons rfl rfl (ChainMatches.cons rfl rfl (ChainMatches.nil 11)))

/-- C2: when the links before position k all match and succeed and the current
result `r` fails to equal link k's `expected`, `wait` delivers exactly
`otherwise r expected` for link k — whatever the links after k are, so their
handlers are never invoked. -/
theorem c2_first_mismatch_runs_otherwise {V : Type} [DecidableEq V]
    (p : PromiseState V) (pre rest : List (ChainItem V)) (exp r : V)
    (h : Handler V) (f : V → V → Except Exc V)
    (hchain : p.call_chain = pre ++ ChainItem.mk exp h (some f) :: rest)
    (hm : ChainMatches (runEntry p.first_call) pre r) (hne : r ≠ exp) :
    waitResult p = f r exp := by
  rw [waitResult, hchain, runChain_append hm, runChain, if_neg hne]

/-- The spec's mismatch chain: entry returns 5; link 1 expects 5 and adds 3;
link 2 expects 9 (mismatch, actual 8) with an explicit `otherwise`; link 3
would add 3 but is never reached. -/
def mismatchPromise : PromiseState Int :=
  onAdd (onAdd (onAdd (mkPromise entry5) 5 add3 none) 9 add3
    (some (fun r e => Except.ok (r * 100 + e)))) 0 add3 none

theorem c2_witness : waitResult mismatchPromise = Except.ok (809 : Int) :=
  c2_first_mismatch_runs_otherwise mismatchPromise
    [⟨5, add3, some raiseValueError⟩] [⟨0, add3, some raiseValueError⟩]
    9 8 add3 (fun r e => Except.ok (r * 100 + e)) rfl
    (ChainMatches.cons rfl rfl (ChainMatches.nil 8)) (by decide)

/-- C3: if, at the first link reached whose handler call raises, either the
effective `on_match` invocation (match case) or the `otherwise` invocation
(mismatch case) raises exception `e`, then `wait` delivers the exception
object `e` itself as the final result — no exception escapes `_wait` — and
the links after it are never invoked (the conclusion holds for every
`rest`). -/
theorem c3_fault_becomes_result {V : Type} [DecidableEq V] :
    (∀ (p : PromiseState V) (pre rest : List (ChainItem V)) (exp r : V)
       (h : Handler V) (ow : Option (V → V → Except Exc V)) (e : Exc),
       p.call_chain = pre ++ ChainItem.mk exp h ow :: rest →
       ChainMatches (runEntry p.first_call) pre r → r = exp →
       callMatch h r = Except.error e → waitResult p = Except.error e)
  ∧ (∀ (p : PromiseState V) (pre rest : List (ChainItem V)) (exp r : V)
       (h : Handler V) (f : V → V → Except Exc V) (e : Exc),
       p.call_chain = pre ++ ChainItem.mk exp h (some f) :: rest →
       ChainMatches (runEntry p.first_call) pre r → r ≠ exp →
       f r exp = Except.error e → waitResult p = Except.error e) := by
  constructor
  · intro p pre rest exp r h ow e hchain hm heq hcall
    rw [waitResult, hchain, runChain_append hm, runChain, if_pos heq, hcall]
  · intro p pre rest exp r h f e hchain hm hne hf
    rw [waitResult, hchain, runChain_append hm, runChain, if_neg hne]
    exact hf

/-- The operations a caller can perform on a live Promise: `on` (append a
link), `go` (start), and the thread-starting effect of `wait` (which calls
`go` when no thread exists before blocking on the queue). -/
inductive POp (V : Type) where
  | onO : V → Handler V → Option (V → V → Except Exc V) → POp V
  | goO : POp V
  | waitO : POp V

/-- Apply one operation to the promise state; the second component is the
number of background threads the operation creates (0 or 1). -/
def applyOp {V : Type} [ToString V] (p : PromiseState V) :
    POp V → PromiseState V × Nat
  | POp.onO e h ow => (onAdd p e h ow, 0)
  | POp.goO => goStep p
  | POp.waitO => goStep p

/-- Total number of background threads created while running a sequence of
operations against a promise. -/
def threadsCreated {V : Type} [ToString V] (p : PromiseState V) :
    List (POp V) → Nat
  | [] => 0
  | op :: ops => (applyOp p op).2 + threadsCreated (applyOp p op).1 ops

theorem applyOp_started {V : Type} [ToString V] (p : PromiseState V)
    (op : POp V) (h : p.thread = some ()) :
    (applyOp p op).1.thread = some () ∧ (applyOp p op).2 = 0 := by
  cases op <;> simp [applyOp, onAdd, goStep, h]

theorem threadsCreated_started {V : Type} [ToString V] (ops : List (POp V)) :
    ∀ p : PromiseState V, p.thread = some () → threadsCreated p ops = 0 := by
  induction ops with
  | nil => intro p _; rfl
  | cons op ops ih =>
      intro p h
      obtain ⟨h1, h2⟩ := applyOp_started p op h
      show (applyOp p op).2 + threadsCreated (applyOp p op).1 ops = 0
      rw [h2, ih _ h1]

theorem threadsCreated_le_one {V : Type} [ToString V] (ops : List (POp V)) :
    ∀ p : PromiseState V, p.thread = none → threadsCreated p ops ≤ 1 := by
  induction ops with
  | nil => intro p _; exact Nat.zero_le 1
  | cons op ops ih =>
      intro p h
      show (applyOp p op).2 + threadsCreated (applyOp p op).1 ops ≤ 1
      cases op with
      | onO e hh ow =>
          have hth : (onAdd p e hh ow).thread = none := h
          simpa [applyOp] using ih (onAdd p e hh ow) hth
      | goO =>
          simp only [applyOp, goStep, h]
          rw [threadsCreated_started ops _ rfl]
      | waitO =>
          simp only [applyOp, goStep, h]
          rw [threadsCreated_started ops _ rfl]

/-- C4: the operation `go` is idempotent.  (1) Starting from a freshly constructed Promise,
any sequence of `on`/`go`/`wait` operations creates at most one background
thread.  (2) A `go` on a promise whose thread already exists returns the
promise unchanged and creates no thread.  (3) `go` never touches the entry
call or the chain (it resets no state and returns `self`). -/
theorem c4_go_idempotent {V : Type} [ToString V] :
    (∀ (fc : FunctionCall V) (ops : List (POp V)),
       threadsCreated (mkPromise fc) ops ≤ 1)
  ∧ (∀ p : PromiseState V, p.thread = some () → goStep p = (p, 0))
  ∧ (∀ p : PromiseState V,
       (goStep p).1.first_call = p.first_call
       ∧ (goStep p).1.call_chain = p.call_chain) := by
  refine ⟨fun fc ops => threadsCreated_le_one ops (mkPromise fc) rfl,
    fun p h => by simp [goStep, h],
    fun p => ?_⟩
  cases hth : p.thread <;> simp [goStep, hth]

/-- A promise whose background thread has already been started. -/
def startedPromise : PromiseState Int :=
  { mkPromise entry5 with thread := some () }

theorem c4_witness :
    threadsCreated (mkPromise entry5) [POp.goO, POp.goO, POp.waitO] ≤ 1
    ∧ goStep startedPromise = (startedPromise, 0) :=
  ⟨c4_go_idempotent.1 entry5 [POp.goO, POp.goO, POp.waitO],
   c4_go_idempotent.2.1 startedPromise rfl⟩

/-- Python `kwargs.get(k)`: look a key up in the keyword-argument mapping. -/
def lookupKw {V : Type} (kwargs : List (String × V)) (k : String) : Option V :=
  match kwargs.find? (fun kv => kv.1 == k) with
  | some kv => some kv.2
  | none => none

/-- Python `del kwargs[k]`: remove a key from the keyword-argument mapping. -/
def removeKw {V : Type} (kwargs : List (String × V)) (k : String) :
    List (String × V) :=
  kwargs.filter (fun kv => kv.1 != k)

/-- What a call to a promise-decorated wrapper produces: a plain value (the
bypass path) or a fresh unstarted Promise. -/
inductive CallOutcome (V : Type) where
  | plain : V → CallOutcome V
  | promiseOf : PromiseState V → CallOutcome V

/-- The `decorated_function` wrapper of the `promise` decorator: when
`kwargs.get("no_promise")` is truthy, strip the marker and call `fn`
directly; otherwise package `FunctionCall(fn, args, kwargs)` and return a new
`_Promise` around it.  `truthy` models Python truthiness of the marker
value. -/
def decorated_function {V : Type} (fn : List V → List (String × V) → V)
    (truthy : V → Bool) (args : List V) (kwargs : List (String × V)) :
    CallOutcome V :=
  match lookupKw kwargs "no_promise" with
  | some v =>
      if truthy v then
        CallOutcome.plain (fn args (removeKw kwargs "no_promise"))
      else
        CallOutcome.promiseOf (mkPromise ⟨fn, args, kwargs⟩)
  | none => CallOutcome.promiseOf (mkPromise ⟨fn, args, kwargs⟩)

/-- C5: with a truthy `no_promise` marker, the wrapper strips the marker and
returns `fn`'s value computed directly; with the marker absent (or present
but falsy, hence "not set"), it executes nothing and returns a fresh Promise
packaging exactly `(fn, args, kwargs)` — empty chain, no thread. -/
theorem c5_decorator_dispatch {V : Type} (fn : List V → List (String × V) → V)
    (truthy : V → Bool) (args : List V) (kwargs : List (String × V)) :
    (∀ v, lookupKw kwargs "no_promise" = some v → truthy v = true →
       decorated_function fn truthy args kwargs
         = CallOutcome.plain (fn args (removeKw kwargs "no_promise")))
  ∧ (lookupKw kwargs "no_promise" = none →
       decorated_function fn truthy args kwargs
         = CallOutcome.promiseOf ⟨⟨fn, args, kwargs⟩, [], none⟩)
  ∧ (∀ v, lookupKw kwargs "no_promise" = some v → truthy v = false →
       decorated_function fn truthy args kwargs
         = CallOutcome.promiseOf ⟨⟨fn, args, kwargs⟩, [], none⟩) := by
  refine ⟨fun v hv ht => ?_, fun hn => ?_, fun v hv hf => ?_⟩
  · simp [decorated_function, hv, ht]
  · simp [decorated_function, hn, mkPromise]
  · simp [decorated_function, hv, hf, mkPromise]

/-- A sample wrapped function: adds 1 to its first positional argument. -/
def incHead : List Int → List (String × Int) → Int :=
  fun args _ => args.headD 0 + 1

theorem c5_witness :
    decorated_function incHead (fun v => v != 0) [4] [("no_promise", 1)]
      = CallOutcome.plain (incHead [4] (removeKw [("no_promise", 1)] "no_promise"))
    ∧ decorated_function incHead (fun v => v != 0) [4] []
      = CallOutcome.promiseOf ⟨⟨incHead, [4], []⟩, [], none⟩
    ∧ decorated_function incHead (fun v => v != 0) [4] [("no_promise", 0)]
      = CallOutcome.promiseOf ⟨⟨incHead, [4], [("no_promise", 0)]⟩, [], none⟩ :=
  ⟨(c5_decorator_dispatch incHead (fun v => v != 0) [4]
      [("no_promise", 1)]).1 1 rfl rfl,
   (c5_decorator_dispatch incHead (fun v => v != 0) [4] []).2.1 rfl,
   (c5_decorator_dispatch incHead (fun v => v != 0) [4]
      [("no_promise", 0)]).2.2 0 rfl rfl⟩

/-- A handler whose bypass invocation raises a non-keyword error. -/
def boomHandler : Handler Int :=
  ⟨fun _ => Except.error ⟨"RuntimeError", "boom"⟩, fun r => Except.ok r⟩

/-- A chain whose second link's `on_match` raises: entry 5, link 1 adds 3,
link 2 expects 8 and raises, link 3 is never reached. -/
def faultPromise : PromiseState Int :=
  onAdd (onAdd (onAdd (mkPromise entry5) 5 add3 none) 8 boomHandler none)
    0 add3 none

/-- A chain whose first link mismatches and whose `otherwise` raises. -/
def owFaultPromise : PromiseState Int :=
  onAdd (onAdd (mkPromise entry5) 9 add3
    (some (fun _ _ => Except.error ⟨"RuntimeError", "ow boom"⟩))) 0 add3 none

theorem c3_witness :
    waitResult faultPromise = Except.error ⟨"RuntimeError", "boom"⟩
    ∧ waitResult owFaultPromise = Except.error ⟨"RuntimeError", "ow boom"⟩ :=
  ⟨c3_fault_becomes_result.1 faultPromise
      [⟨5, add3, some raiseValueError⟩] [⟨0, add3, some raiseValueError⟩]
      8 8 boomHandler (some raiseValueError) ⟨"RuntimeError", "boom"⟩ rfl
      (ChainMatches.cons rfl rfl (ChainMatches.nil 8)) rfl rfl,
   c3_fault_becomes_result.2 owFaultPromise
      [] [⟨0, add3, some raiseValueError⟩] 9 5 add3
      (fun _ _ => Except.error ⟨"RuntimeError", "ow boom"⟩)
      ⟨"RuntimeError", "ow boom"⟩ rfl (ChainMatches.nil 5) (by decide) rfl⟩

theorem hasUKA_ukaExc : hasUKA ukaExc = true := rfl

theorem callMatch_plainHandler {V : Type} (g : V → Except Exc V) (r : V) :
    callMatch (plainHandler g) r = g r := by
  simp [callMatch, plainHandler, hasUKA_ukaExc]

theorem startsWithL_self {n b : List Char} : startsWithL n (n ++ b) = true := by
  induction n with
  | nil => rfl
  | cons a as ih => simp [startsWithL, ih]

theorem subList_cons_right {n : List Char} (c : Char) {t : List Char}
    (h : subList n t = true) : subList n (c :: t) = true := by
  simp [subList, h]

theorem subList_self (n b : List Char) : subList n (n ++ b) = true := by
  cases n with
  | nil => cases b <;> simp [subList, startsWithL]
  | cons a as => simp [subList, startsWithL, startsWithL_self]

theorem subList_append_any (a n b : List Char) :
    subList n (a ++ (n ++ b)) = true := by
  induction a with
  | nil => exact subList_self n b
  | cons c cs ih => exact subList_cons_right c ih

theorem strIn_parts (n h : String) (x y : List Char)
    (he : h.toList = x ++ (n.toList ++ y)) : strIn n h = true := by
  rw [strIn, he]
  exact subList_append_any x n.toList y

/-- C9: a plain handler that rejects the `no_promise` keyword is retried
without it; the retry's return value becomes the link's result and feeds the
rest of the chain, and an exception raised by the retry is captured as the
final result, stopping the chain. -/
theorem c9_plain_handler_retried {V : Type} [DecidableEq V]
    (g : V → Except Exc V) (r exp : V)
    (ow : Option (V → V → Except Exc V)) (rest : List (ChainItem V))
    (hmatch : r = exp) :
    (∀ v, g r = Except.ok v →
       runChain r (ChainItem.mk exp (plainHandler g) ow :: rest)
         = runChain v rest)
  ∧ (∀ e, g r = Except.error e →
       runChain r (ChainItem.mk exp (plainHandler g) ow :: rest)
         = Except.error e) := by
  subst hmatch
  constructor
  · intro v hv
    simp [runChain, callMatch_plainHandler, hv]
  · intro e he
    simp [runChain, callMatch_plainHandler, he]

theorem c9_witness :
    runChain (5 : Int)
        [ChainItem.mk 5 (plainHandler (fun r => Except.ok (r + 3)))
          (some raiseValueError)]
      = runChain (8 : Int) []
    ∧ runChain (5 : Int)
        [ChainItem.mk 5
          (plainHandler (fun _ => Except.error ⟨"RuntimeError", "retry boom"⟩))
          (some raiseValueError)]
      = Except.error ⟨"RuntimeError", "retry boom"⟩ :=
  ⟨(c9_plain_handler_retried (fun r => Except.ok (r + 3)) 5 5
      (some raiseValueError) [] rfl).1 8 rfl,
   (c9_plain_handler_retried (fun _ => Except.error ⟨"RuntimeError", "retry boom"⟩)
      5 5 (some raiseValueError) [] rfl).2 ⟨"RuntimeError", "retry boom"⟩ rfl⟩

/-- C10: whenever the bypass invocation raises an exception whose message
contains "unexpected keyword argument" — even from a handler that accepted
the keyword and faulted for its own reasons — `_wait` invokes the handler a
second time without the keyword, and that second invocation's outcome alone
determines the link's result. -/
theorem c10_uka_message_forces_retry {V : Type} [DecidableEq V]
    (h : Handler V) (r exp : V) (e : Exc)
    (ow : Option (V → V → Except Exc V)) (rest : List (ChainItem V))
    (hbp : h.callWithBypass r = Except.error e) (huka : hasUKA e = true)
    (hmatch : r = exp) :
    callMatch h r = h.callPlain r
    ∧ runChain r (ChainItem.mk exp h ow :: rest)
        = match h.callPlain r with
          | Except.ok v => runChain v rest
          | Except.error e2 => Except.error e2 := by
  subst hmatch
  have hcm : callMatch h r = h.callPlain r := by
    simp [callMatch, hbp, huka]
  refine ⟨hcm, ?_⟩
  rw [runChain, if_pos rfl]
  rw [show callMatch (ChainItem.mk r h ow).on_match r = h.callPlain r from hcm]

/-- A handler that accepts the bypass keyword yet raises an exception whose
message happens to contain the retry substring: `_wait` runs it twice. -/
def trickHandler : Handler Int :=
  ⟨fun _ => Except.error
      ⟨"RuntimeError", "fault mentioning an unexpected keyword argument"⟩,
   fun r => Except.ok (r * 2)⟩

theorem c10_witness :
    callMatch trickHandler 5 = trickHandler.callPlain 5
    ∧ runChain (5 : Int) [ChainItem.mk 5 trickHandler (some raiseValueError)]
        = match trickHandler.callPlain 5 with
          | Except.ok v => runChain v []
          | Except.error e2 => Except.error e2 :=
  c10_uka_message_forces_retry trickHandler 5 5
    ⟨"RuntimeError", "fault mentioning an unexpected keyword argument"⟩
    (some raiseValueError) [] rfl rfl rfl

/-- A promise-decorated function used directly as an `on_match` handler:
`_wait` invokes the wrapper itself.  The bypass invocation passes the marker
(`no_promise=tv`, Python `True`); the plain invocation passes no keyword.
When `decorated_function` yields a Promise object rather than a plain value,
`embed` maps that object reference into the value domain. -/
def handlerOfDecorated {V : Type} (fn : List V → List (String × V) → V)
    (truthy : V → Bool) (tv : V) (embed : PromiseState V → V) : Handler V :=
  { callWithBypass := fun r =>
      match decorated_function fn truthy [r] [("no_promise", tv)] with
      | CallOutcome.plain v => Except.ok v
      | CallOutcome.promiseOf q => Except.ok (embed q)
    callPlain := fun r =>
      match decorated_function fn truthy [r] [] with
      | CallOutcome.plain v => Except.ok v
      | CallOutcome.promiseOf q => Except.ok (embed q) }

/-- C6: on a matching link whose handler is the promise-decorated wrapper of
`fn`, the link's result is the plain value `fn [r] []` computed synchronously
— independent of `embed`, so no Promise object enters the chain — and the
chain proceeds exactly as it would with the undecorated plain function as the
handler. -/
theorem c6_decorated_handler_inline {V : Type} [DecidableEq V]
    (fn : List V → List (String × V) → V) (truthy : V → Bool) (tv : V)
    (embed : PromiseState V → V) (r exp : V)
    (ow : Option (V → V → Except Exc V)) (rest : List (ChainItem V))
    (htv : truthy tv = true) (hmatch : r = exp) :
    runChain r
        (ChainItem.mk exp (handlerOfDecorated fn truthy tv embed) ow :: rest)
      = runChain (fn [r] []) rest
    ∧ runChain r
        (ChainItem.mk exp (plainHandler (fun x => Except.ok (fn [x] []))) ow
          :: rest)
      = runChain (fn [r] []) rest := by
  subst hmatch
  constructor
  · simp [runChain, callMatch, handlerOfDecorated, decorated_function,
      lookupKw, removeKw, htv, List.find?, List.filter]
  · simp [runChain, callMatch_plainHandler]

/-- The decorated add-3 function of the example scenario, as a raw function of
positional and keyword arguments. -/
def rawAdd3 : List Int → List (String × Int) → Int :=
  fun args _ => args.headD 0 + 3

theorem c6_witness :
    runChain (5 : Int)
        [ChainItem.mk 5
          (handlerOfDecorated rawAdd3 (fun v => v != 0) 1 (fun _ => -999))
          (some raiseValueError)]
      = runChain (rawAdd3 [5] []) []
    ∧ runChain (5 : Int)
        [ChainItem.mk 5 (plainHandler (fun x => Except.ok (rawAdd3 [x] [])))
          (some raiseValueError)]
      = runChain (rawAdd3 [5] []) [] :=
  c6_decorated_handler_inline rawAdd3 (fun v => v != 0) 1 (fun _ => -999)
    5 5 (some raiseValueError) [] rfl rfl

/-- C7: when the links before position k all match and succeed and the
current result `r` mismatches a link that was appended by `on` with
`otherwise` unset, `wait` delivers the default handler's `ValueError` — an
error value, not a plain value — whose message names both the expected and
the actual result, and the links after k (any `rest`) are never invoked. -/
theorem c7_unset_otherwise_raises {V : Type} [DecidableEq V] [ToString V]
    (q : PromiseState V) (exp r : V) (h : Handler V)
    (rest : List (ChainItem V))
    (hm : ChainMatches (runEntry q.first_call) q.call_chain r)
    (hne : r ≠ exp) :
    waitResult
        (⟨q.first_call, (onAdd q exp h none).call_chain ++ rest, q.thread⟩ :
          PromiseState V)
      = Except.error (mismatchError r exp)
    ∧ (mismatchError r exp).kind = "ValueError"
    ∧ strIn (toString exp) (mismatchError r exp).msg = true
    ∧ strIn (toString r) (mismatchError r exp).msg = true := by
  refine ⟨?_, rfl, ?_, ?_⟩
  · show runChain (runEntry q.first_call)
        ((q.call_chain ++ [ChainItem.mk exp h (some raiseValueError)]) ++ rest)
      = Except.error (mismatchError r exp)
    rw [List.append_assoc, List.singleton_append, runChain_append hm,
      runChain, if_neg hne]
    rfl
  · exact strIn_parts (toString exp) _ "expected(".toList
      ((") does not equal result(" ++ toString r ++ ")").toList)
      (by simp [mismatchError, String.toList, String.data_append,
        List.append_assoc])
  · exact strIn_parts (toString r) _
      (("expected(" ++ toString exp ++ ") does not equal result(").toList)
      (")".toList)
      (by simp [mismatchError, String.toList, String.data_append,
        List.append_assoc])

theorem c7_witness :
    waitResult
        (⟨(onAdd (mkPromise entry5) 5 add3 none).first_call,
          (onAdd (onAdd (mkPromise entry5) 5 add3 none) 9 add3 none).call_chain
            ++ [ChainItem.mk 0 add3 (some raiseValueError)],
          (onAdd (mkPromise entry5) 5 add3 none).thread⟩ : PromiseState Int)
      = Except.error (mismatchError 8 9)
    ∧ (mismatchError (8 : Int) 9).kind = "ValueError"
    ∧ strIn (toString (9 : Int)) (mismatchError (8 : Int) 9).msg = true
    ∧ strIn (toString (8 : Int)) (mismatchError (8 : Int) 9).msg = true :=
  c7_unset_otherwise_raises (onAdd (mkPromise entry5) 5 add3 none) 9 8 add3
    [ChainItem.mk 0 add3 (some raiseValueError)]
    (ChainMatches.cons rfl rfl (ChainMatches.nil 8)) (by decide)

/-- C8 as stated is false: `on` substitutes the default handler eagerly. -/
theorem c8_counterexample :
    ((onAdd (mkPromise entry5) 5 add3 none).call_chain.map
      (fun it => it.otherwise.isNone)) = [false] :=
  rfl

/-- C8 (amended): when `on` is called with `otherwise` unset, the default
"raise mismatch error" handler is substituted eagerly at append time — the
stored Chain Link's `otherwise` field already holds the default handler, not
an unset marker — and `on` changes nothing else of the promise state. -/
theorem c8_eager_default_substitution {V : Type} [ToString V]
    (p : PromiseState V) (exp : V) (h : Handler V) :
    (onAdd p exp h none).call_chain
      = p.call_chain ++ [ChainItem.mk exp h (some raiseValueError)]
    ∧ (onAdd p exp h none).first_call = p.first_call
    ∧ (onAdd p exp h none).thread = p.thread :=
  ⟨rfl, rfl, rfl⟩
